import Mathlib

/-!
Verification development for the MultiAgent-MCP-System repository.

Shallow embedding of the generation orchestration engine
(`src/backend/main.py`) and the task-routing helper
(`src/mcp_servers/router_mcp/server.py`):

* provider call wrappers `call_ollama` / `call_openrouter` are modelled by
  `callOllamaM` / `callOpenrouterM`, with the underlying network outcome of
  each textual call site supplied as an oracle value of type
  `Except String String` (`.ok body` = the HTTP call succeeded and the
  response body parsed, `.error msg` = any exception inside the `try`:
  timeout, connection failure, non-success status via `raise_for_status`,
  or JSON access failure);
* the prompt-enhancement step, the code-generation step with its
  cloud-to-local fallback, the `/api/generate` and `/api/chat` endpoint
  bodies, and the project save/load code are translated function by
  function;
* the artifact extractor `extract_code_blocks` is translated including the
  leftmost-match semantics of the three `re.search` calls;
* the router server's `call_llm` / `route_tasks` are translated with the
  HTTP status made explicit, since their control flow branches on it.

Python strings are modelled as `String` / `List Char`; case folding and the
whitespace class are modelled on the character sets Python actually uses
for the ASCII patterns appearing in the source (the exotic Unicode fold
pairs of `re.IGNORECASE`, which none of the claims touch, are out of scope).
-/

/-- Exceptions that the backend code can raise: `fastapi.HTTPException`
with a status code and a detail string, or any other exception carrying
its `str(e)` rendering. -/
inductive Exc where
  | http (status : Nat) (detail : String)
  | other (msg : String)
deriving DecidableEq

/-- `str(e)` for the modelled exceptions; Starlette's `HTTPException.__str__`
renders as `f"{status_code}: {detail}"`. -/
def excMessage : Exc → String
  | .http s d => toString s ++ ": " ++ d
  | .other m => m

/-- Model of `call_ollama` (src/backend/main.py lines 124-141): on any
exception of the underlying HTTP call it raises
`HTTPException(500, "Ollama error: " ++ msg)`, otherwise it returns the
response body. -/
def callOllamaM (net : Except String String) : Except Exc String :=
  match net with
  | .ok t => .ok t
  | .error m => .error (.http 500 ("Ollama error: " ++ m))

/-- Model of `call_openrouter` (src/backend/main.py lines 144-171): with no
API key configured it raises `HTTPException(500, ...)` before any network
call; otherwise failures become `HTTPException(500, "OpenRouter error: " ++ msg)`. -/
def callOpenrouterM (hasKey : Bool) (net : Except String String) : Except Exc String :=
  if hasKey then
    match net with
    | .ok t => .ok t
    | .error m => .error (.http 500 ("OpenRouter error: " ++ m))
  else .error (.http 500 "OpenRouter API key not configured")

/-- The module-level configuration read from the environment in
src/backend/main.py lines 60-70, immutable for the process lifetime. -/
structure Config where
  preferCloud : Bool
  hasKey : Bool
  useCloudFallback : Bool
  cloudCodeModel : String
  cloudChatModel : String
deriving DecidableEq

/-- `use_cloud = PREFER_CLOUD and bool(OPENROUTER_API_KEY)` as computed at
src/backend/main.py lines 286, 335, 454 and 508. -/
def useCloud (cfg : Config) : Bool :=
  cfg.preferCloud && cfg.hasKey

/-- Which backend a single provider attempt targeted. -/
inductive Provider where
  | cloud
  | local
deriving DecidableEq

/-- Model of the code-generation provider step with cloud-to-local
fallback, shared verbatim between `generate_website`
(src/backend/main.py lines 334-356) and `chat_modify` (lines 506-522).
`cloudNet` is the network outcome of the `call_openrouter` site, `localNet`
of the `call_ollama` site taken when `use_cloud` is false, `localFbNet` of
the `call_ollama` fallback site inside the `except` handler.  The second
component records the providers attempted, in execution order. -/
def codegenStep (cfg : Config) (cloudNet localNet localFbNet : Except String String) :
    Except Exc (String × String) × List Provider :=
  if useCloud cfg then
    match callOpenrouterM cfg.hasKey cloudNet with
    | .ok t => (.ok (t, "cloud (" ++ cfg.cloudCodeModel ++ ")"), [Provider.cloud])
    | .error e =>
      if cfg.useCloudFallback then
        match callOllamaM localFbNet with
        | .ok t => (.ok (t, "local (fallback)"), [Provider.cloud, Provider.local])
        | .error e2 => (.error e2, [Provider.cloud, Provider.local])
      else (.error e, [Provider.cloud])
  else
    match callOllamaM localNet with
    | .ok t => (.ok (t, "local"), [Provider.local])
    | .error e => (.error e, [Provider.local])

/-- Python's whitespace class as used by `\s` in the three regexes and by
`str.strip()` in src/backend/main.py lines 179-192 (ASCII whitespace plus
the Unicode whitespace code points Python treats as space). -/
def pyIsSpace (c : Char) : Bool :=
  c == ' ' || c == '\t' || c == '\n' || c == '\r' || c == '\x0b' || c == '\x0c' ||
  c == '\x1c' || c == '\x1d' || c == '\x1e' || c == '\x1f' || c == '\x85' || c == '\xa0' ||
  c == ' ' || (decide (' ' ≤ c) && decide (c ≤ ' ')) ||
  c == ' ' || c == ' ' || c == ' ' || c == ' ' || c == '　'

/-- ASCII lower-casing, modelling the case folding `re.IGNORECASE` and
`str.lower()` perform on the ASCII-only patterns of the source. -/
def asciiLower (c : Char) : Char :=
  if 'A' ≤ c ∧ c ≤ 'Z' then Char.ofNat (c.toNat + 32) else c

/-- `Python str.strip()`: remove leading and trailing whitespace. -/
def pyStrip (l : List Char) : List Char :=
  ((l.dropWhile pyIsSpace).reverse.dropWhile pyIsSpace).reverse

/-- Case-insensitive prefix test: the pattern is given in lowercase and the
text character is ASCII-lowered before comparison. -/
def startsWithCI : List Char → List Char → Bool
  | [], _ => true
  | _ :: _, [] => false
  | p :: ps, c :: cs => asciiLower c == p && startsWithCI ps cs

/-- Whether the text begins with a closing fence of three backticks. -/
def ticksAt : List Char → Bool
  | '`' :: '`' :: '`' :: _ => true
  | _ => false

/-- The characters before the first occurrence of a three-backtick fence,
or `none` if no such fence occurs; this is the text the lazy group
`([\s\S]*?)` captures before the closing fence. -/
def takeUntilTicks : List Char → Option (List Char)
  | [] => none
  | c :: cs =>
    if ticksAt (c :: cs) then some []
    else
      match takeUntilTicks cs with
      | some r => some (c :: r)
      | none => none

/-- One attempt of the fence regex at the current position: match three
backticks and the (lowercase) language tag case-insensitively, consume the
greedy `\s*` run, then capture up to the next closing fence.  Backtracking
of `\s*` cannot rescue a missing closing fence, because a fence never
starts inside a whitespace run, so this single pass is exact. -/
def fenceAt (tag : List Char) (s : List Char) : Option (List Char) :=
  if startsWithCI (['`', '`', '`'] ++ tag) s then
    takeUntilTicks ((s.drop (3 + tag.length)).dropWhile pyIsSpace)
  else none

/-- `re.search` semantics: try the position attempt `f` at every suffix,
left to right, and return the first capture. -/
def searchFence (f : List Char → Option (List Char)) : List Char → Option (List Char)
  | [] => none
  | c :: cs =>
    match f (c :: cs) with
    | some r => some r
    | none => searchFence f cs

def htmlTag : List Char := ['h', 't', 'm', 'l']

def cssTag : List Char := ['c', 's', 's']

def javascriptTag : List Char := ['j', 'a', 'v', 'a', 's', 'c', 'r', 'i', 'p', 't']

def jsTag : List Char := ['j', 's']

/-- The position attempt for the alternation `(?:javascript|js)`: at one
position the engine tries `javascript` first, then `js`; the two
alternatives can never both match at the same position. -/
def jsAt (s : List Char) : Option (List Char) :=
  match fenceAt javascriptTag s with
  | some c => some c
  | none => fenceAt jsTag s

/-- First match of `` r'```html\s*([\s\S]*?)```' `` (IGNORECASE). -/
def htmlSearch (l : List Char) : Option (List Char) :=
  searchFence (fenceAt htmlTag) l

/-- First match of `` r'```css\s*([\s\S]*?)```' `` (IGNORECASE). -/
def cssSearch (l : List Char) : Option (List Char) :=
  searchFence (fenceAt cssTag) l

/-- First match of `` r'```(?:javascript|js)\s*([\s\S]*?)```' `` (IGNORECASE). -/
def jsSearch (l : List Char) : Option (List Char) :=
  searchFence jsAt l

/-- Case-insensitive substring test, modelling
`pattern in response.lower()` for the ASCII patterns of the source. -/
def containsTokenCI (pat : List Char) : List Char → Bool
  | [] => startsWithCI pat []
  | c :: cs => startsWithCI pat (c :: cs) || containsTokenCI pat cs

/-- `'<html' in response.lower() or '<!doctype' in response.lower()`
(src/backend/main.py line 191). -/
def hasDocMarker (l : List Char) : Bool :=
  containsTokenCI (("<html").toList) l || containsTokenCI (("<!doctype").toList) l

/-- The three extracted artifacts (`result` dict of `extract_code_blocks`). -/
structure Artifacts where
  html : String
  css : String
  js : String
deriving DecidableEq

/-- The stripped capture of the html regex, or `""` when it does not match
(the value `result["html"]` holds after src/backend/main.py lines 179-181). -/
def htmlVal (response : String) : String :=
  match htmlSearch response.toList with
  | some c => String.mk (pyStrip c)
  | none => ""

/-- The stripped capture of the css regex, or `""` (lines 183-185). -/
def cssVal (response : String) : String :=
  match cssSearch response.toList with
  | some c => String.mk (pyStrip c)
  | none => ""

/-- The stripped capture of the javascript regex, or `""` (lines 187-189). -/
def jsVal (response : String) : String :=
  match jsSearch response.toList with
  | some c => String.mk (pyStrip c)
  | none => ""

/-- Model of `extract_code_blocks` (src/backend/main.py lines 174-194; the
copy in src/mcp_servers/code_mcp/server.py lines 97-124 is the same
function).  Note the guard of the document-root fallback is
`not any(result.values())`: it fires whenever all three captured values
are empty strings, which also happens when a fence matched but its capture
stripped to the empty string. -/
def extract_code_blocks (response : String) : Artifacts :=
  if htmlVal response = "" ∧ cssVal response = "" ∧ jsVal response = "" ∧
      hasDocMarker response.toList = true then
    { html := String.mk (pyStrip response.toList), css := cssVal response, js := jsVal response }
  else
    { html := htmlVal response, css := cssVal response, js := jsVal response }

/-- Python's `x or y` on a string `x` and an optional-string `y`
(`code_blocks["html"] or request.current_html` etc., src/backend/main.py
lines 530-532): the empty string is falsy, so the second operand is
returned exactly when the first is empty. -/
def pyOr (x : String) (y : Option String) : Option String :=
  if x = "" then y else some x

/-- The project metadata dict written to `metadata.json`
(src/backend/main.py lines 381-387); JSON serialisation of this record of
strings round-trips, so the store holds the record itself. -/
structure Metadata where
  project_id : String
  original_prompt : String
  enhanced_prompt : String
  created_at : String
  model_used : String
deriving DecidableEq

/-- The project directory tree under `PROJECTS_DIR`: the set of project
folders, the per-project artifact files keyed by (folder, filename), and
the per-project `metadata.json` contents.  Newer writes are prepended and
lookups take the first hit, so re-writing a file shadows the old entry. -/
structure Store where
  folders : List String
  files : List (String × String × String)
  metas : List (String × Metadata)

/-- Empty projects directory. -/
def emptyStore : Store := { folders := [], files := [], metas := [] }

/-- First entry for the given folder and filename, if any (models
`os.path.exists` + `open(...).read()` on one file). -/
def lookupFile : List (String × String × String) → String → String → Option String
  | [], _, _ => none
  | (p, f, c) :: rest, pid, fn =>
    if p = pid ∧ f = fn then some c else lookupFile rest pid fn

/-- First metadata entry for the given folder, if any. -/
def lookupMeta : List (String × Metadata) → String → Option Metadata
  | [], _ => none
  | (p, m) :: rest, pid => if p = pid then some m else lookupMeta rest pid

/-- Model of the persistence block of `generate_website`
(src/backend/main.py lines 361-389): create the folder (`exist_ok=True`),
always write `index.html`, write `styles.css` and `script.js` only when
the corresponding artifact is non-empty, then write `metadata.json`.
Stale artifact files from an earlier save of the same identifier are never
deleted. -/
def saveProject (st : Store) (project_id html_content css js : String) (meta : Metadata) : Store :=
  let st1 : Store :=
    { st with folders := if project_id ∈ st.folders then st.folders else project_id :: st.folders }
  let st2 : Store := { st1 with files := (project_id, ("index.html"), html_content) :: st1.files }
  let st3 : Store :=
    if css ≠ "" then { st2 with files := (project_id, ("styles.css"), css) :: st2.files } else st2
  let st4 : Store :=
    if js ≠ "" then { st3 with files := (project_id, ("script.js"), js) :: st3.files } else st3
  { st4 with metas := (project_id, meta) :: st4.metas }

/-- The success payload of `GET /api/projects/{project_id}`; `metadata` is
`none` when `metadata.json` is absent (the source then returns `{}`). -/
structure ProjectView where
  success : Bool
  project_id : String
  html : String
  css : String
  javascript : String
  metadata : Option Metadata
deriving DecidableEq

/-- Model of `get_project` (src/backend/main.py lines 615-666): a missing
project folder raises `HTTPException(404, "Project not found")`, which the
`except HTTPException: raise` arm re-raises to the transport; missing
per-artifact files read as empty strings. -/
def get_project (st : Store) (project_id : String) : Except Exc ProjectView :=
  if project_id ∈ st.folders then
    .ok { success := true
          project_id := project_id
          html := (lookupFile st.files project_id ("index.html")).getD ""
          css := (lookupFile st.files project_id ("styles.css")).getD ""
          javascript := (lookupFile st.files project_id ("script.js")).getD ""
          metadata := lookupMeta st.metas project_id }
  else .error (.http 404 "Project not found")

/-- The `/api/generate` request body (`GenerationRequest`,
src/backend/main.py lines 81-87). -/
structure GenRequest where
  prompt : String
  project_id : Option String
  enhance_prompt : Bool
  include_images : Bool
  single_file : Bool
deriving DecidableEq

/-- The `/api/generate` response body (`GenerationResponse`,
src/backend/main.py lines 90-100); `model_used` defaults to `"local"`. -/
structure GenerationResponse where
  success : Bool
  project_id : String
  html : String
  css : String
  javascript : String
  enhanced_prompt : Option String
  error : Option String
  model_used : String
deriving DecidableEq

/-- Network outcomes of the six provider call sites inside
`generate_website`, one oracle per textual call site, plus the outcome of
the file writes of the persistence block (an `OSError` message on
failure, modelled as all-or-nothing). -/
structure GenBehavior where
  enhCloudNet : Except String String
  enhLocalNet : Except String String
  enhLocalFbNet : Except String String
  codeCloudNet : Except String String
  codeLocalNet : Except String String
  codeLocalFbNet : Except String String
  persist : Except String Unit

/-- Model of the prompt-enhancement step of `generate_website`
(src/backend/main.py lines 269-311): skipped when the request opts out;
otherwise one primary attempt (cloud or local depending on `use_cloud`),
then on any failure one local retry whose own failure is swallowed by
`except: pass`, leaving the original prompt. -/
def enhanceStep (cfg : Config) (prompt : String) (enhFlag : Bool) (b : GenBehavior) : String :=
  if enhFlag then
    match
      (if useCloud cfg then callOpenrouterM cfg.hasKey b.enhCloudNet
       else callOllamaM b.enhLocalNet) with
    | .ok t => t
    | .error _ =>
      match callOllamaM b.enhLocalFbNet with
      | .ok t => t
      | .error _ => prompt
  else prompt

/-- The `except HTTPException: raise / except Exception: return
GenerationResponse(success=False, ...)` pair at src/backend/main.py lines
404-414: HTTP exceptions escape to the transport, anything else becomes a
failure response with empty artifacts and the default `model_used`. -/
def dispatchOuter (e : Exc) (pid : String) (st : Store) :
    Except Exc (GenerationResponse × Store) :=
  match e with
  | .http s d => .error (.http s d)
  | .other m =>
    .ok ({ success := false, project_id := pid, html := "", css := "", javascript := "",
           enhanced_prompt := none, error := some m, model_used := "local" }, st)

/-- Model of the `/api/generate` endpoint `generate_website`
(src/backend/main.py lines 262-414).  `freshId` stands for the generated
`f"project_{uuid4...}"` token and `now` for `datetime.now().isoformat()`;
a failing persistence step leaves the modelled store unchanged. -/
def generate_website (cfg : Config) (req : GenRequest) (b : GenBehavior) (st : Store)
    (freshId now : String) : Except Exc (GenerationResponse × Store) :=
  let pid :=
    match req.project_id with
    | some s => if s = "" then freshId else s
    | none => freshId
  let enhanced := enhanceStep cfg req.prompt req.enhance_prompt b
  match codegenStep cfg b.codeCloudNet b.codeLocalNet b.codeLocalFbNet with
  | (Except.error e, _) => dispatchOuter e pid st
  | (Except.ok (code_response, model_used), _) =>
    let cb := extract_code_blocks code_response
    let html_content := if cb.html = "" then code_response else cb.html
    match b.persist with
    | Except.error m => dispatchOuter (Exc.other m) pid st
    | Except.ok _ =>
      let meta : Metadata :=
        { project_id := pid, original_prompt := req.prompt, enhanced_prompt := enhanced,
          created_at := now, model_used := model_used }
      let st2 := saveProject st pid html_content cb.css cb.js meta
      .ok ({ success := true, project_id := pid, html := html_content, css := cb.css,
             javascript := cb.js,
             enhanced_prompt := some ("**Website Plan:**\n\n" ++ enhanced),
             error := none, model_used := model_used }, st2)

/-- The `/api/chat` request body (`ChatRequest`, src/backend/main.py lines
110-117); the history list does not influence the modelled control flow. -/
structure ChatRequest where
  project_id : String
  message : String
  current_html : Option String
  current_css : Option String
  current_js : Option String
deriving DecidableEq

/-- Network outcomes of the three provider call sites inside `chat_modify`. -/
structure ChatBehavior where
  chatCloudNet : Except String String
  chatLocalNet : Except String String
  chatLocalFbNet : Except String String

/-- The two dict shapes `chat_modify` returns: the success dict of lines
526-535 and the failure dict of lines 538-541. -/
inductive ChatResult where
  | ok (project_id message : String) (html css javascript : Option String)
      (assistant_response model_used : String)
  | fail (error : String)
deriving DecidableEq

/-- The `"success"` entry of the returned dict. -/
def ChatResult.success : ChatResult → Bool
  | .ok .. => true
  | .fail _ => false

/-- Model of the `/api/chat` endpoint `chat_modify` (src/backend/main.py
lines 476-541): the same provider step as generation, then merge of
extracted artifacts over the caller's current ones via Python `or`; the
outer `except Exception` catches every exception (HTTP ones included), so
the endpoint always returns a dict. -/
def chat_modify (cfg : Config) (req : ChatRequest) (b : ChatBehavior) : ChatResult :=
  match codegenStep cfg b.chatCloudNet b.chatLocalNet b.chatLocalFbNet with
  | (Except.error e, _) => .fail (excMessage e)
  | (Except.ok (response, model_used), _) =>
    let cb := extract_code_blocks response
    .ok req.project_id "Code updated successfully"
      (pyOr cb.html req.current_html) (pyOr cb.css req.current_css)
      (pyOr cb.js req.current_js) response model_used

/-- Outcome of one HTTP call inside the router server: completion with a
status code and (already JSON-extracted) body, or an exception. -/
inductive NetOutcome where
  | ok (status : Nat) (body : String)
  | exn (msg : String)
deriving DecidableEq

/-- Model of `call_llm` (src/mcp_servers/router_mcp/server.py lines
18-61).  With a key, the OpenRouter call returns its body only on status
200; a non-200 completion or an exception falls through to Ollama.  The
Ollama call returns its body on status 200; on a non-200 completion the
function falls off the end and returns `None`; only on an exception does
the `except` arm return the string `"{}"`. -/
def call_llm (hasKey : Bool) (cloud localO : NetOutcome) : Option String :=
  let cloudResult : Option String :=
    if hasKey then
      match cloud with
      | NetOutcome.ok s body => if s = 200 then some body else none
      | NetOutcome.exn _ => none
    else none
  match cloudResult with
  | some body => some body
  | none =>
    match localO with
    | NetOutcome.ok s body => if s = 200 then some body else none
    | NetOutcome.exn _ => some ("\x7b\x7d")

/-- Model of the `route_tasks` tool (src/mcp_servers/router_mcp/server.py
lines 63-88): it returns the `call_llm` value unchanged — no JSON parse,
no schema validation, no task-plan construction, no error flag. -/
def route_tasks (specification : String) (hasKey : Bool) (cloud localO : NetOutcome) :
    Option String :=
  call_llm hasKey cloud localO

/-- A project identifier with no trace in the store: no folder, no files,
no metadata.  Freshly generated identifiers satisfy this. -/
def freshFor (st : Store) (pid : String) : Prop :=
  pid ∉ st.folders ∧ (∀ fn, lookupFile st.files pid fn = none) ∧
    lookupMeta st.metas pid = none

lemma callOllamaM_error {net : Except String String} {e : Exc}
    (h : callOllamaM net = Except.error e) : ∃ d, e = Exc.http 500 d ∧ d ≠ "" := by
  cases net with
  | ok t => simp [callOllamaM] at h
  | error m =>
    simp only [callOllamaM] at h
    obtain rfl : Exc.http 500 ("Ollama error: " ++ m) = e := by
      simpa using h
    refine ⟨_, rfl, ?_⟩
    intro habs
    have hd : (("Ollama error: " : String) ++ m).data = ("" : String).data := by rw [habs]
    rw [String.data_append] at hd
    simp at hd

lemma callOpenrouterM_error {k : Bool} {net : Except String String} {e : Exc}
    (h : callOpenrouterM k net = Except.error e) : ∃ d, e = Exc.http 500 d ∧ d ≠ "" := by
  cases k with
  | false =>
    simp only [callOpenrouterM, Bool.false_eq_true, if_false] at h
    obtain rfl : Exc.http 500 "OpenRouter API key not configured" = e := by simpa using h
    exact ⟨_, rfl, by simp⟩
  | true =>
    cases net with
    | ok t => simp [callOpenrouterM] at h
    | error m =>
      simp only [callOpenrouterM, if_true] at h
      obtain rfl : Exc.http 500 ("OpenRouter error: " ++ m) = e := by simpa using h
      refine ⟨_, rfl, ?_⟩
      intro habs
      have hd : (("OpenRouter error: " : String) ++ m).data = ("" : String).data := by rw [habs]
      rw [String.data_append] at hd
      simp at hd

lemma codegenStep_error_http (cfg : Config) (cn ln lfn : Except String String) (e : Exc)
    (h : (codegenStep cfg cn ln lfn).1 = Except.error e) : ∃ d, e = Exc.http 500 d ∧ d ≠ "" := by
  unfold codegenStep at h
  by_cases hc : useCloud cfg = true
  · rw [if_pos hc] at h
    rcases hro : callOpenrouterM cfg.hasKey cn with e1 | t1 <;> rw [hro] at h
    · by_cases hfb : cfg.useCloudFallback = true
      · rcases hol : callOllamaM lfn with e2 | t2 <;> simp [hfb, hol] at h
        subst h
        exact callOllamaM_error hol
      · simp [hfb] at h
        subst h
        exact callOpenrouterM_error hro
    · simp at h
  · rw [if_neg hc] at h
    rcases hol : callOllamaM ln with e2 | t2 <;> rw [hol] at h <;> simp at h
    subst h
    exact callOllamaM_error hol

lemma generate_error_iff (cfg : Config) (req : GenRequest) (b : GenBehavior) (st : Store)
    (fid now : String) (e : Exc) :
    generate_website cfg req b st fid now = Except.error e ↔
    (codegenStep cfg b.codeCloudNet b.codeLocalNet b.codeLocalFbNet).1 = Except.error e := by
  unfold generate_website
  rcases hcg : codegenStep cfg b.codeCloudNet b.codeLocalNet b.codeLocalFbNet with ⟨r, tr⟩
  cases r with
  | error e1 =>
    obtain ⟨d, rfl, -⟩ := codegenStep_error_http cfg _ _ _ e1 (by rw [hcg])
    simp [dispatchOuter]
  | ok p =>
    obtain ⟨resp, mu⟩ := p
    cases hp : b.persist with
    | error m => simp [hp, dispatchOuter]
    | ok u => simp [hp]

lemma chat_success_iff (cfg : Config) (req : ChatRequest) (b : ChatBehavior) :
    (chat_modify cfg req b).success = false ↔
    ∃ e, (codegenStep cfg b.chatCloudNet b.chatLocalNet b.chatLocalFbNet).1 = Except.error e := by
  unfold chat_modify
  rcases hcg : codegenStep cfg b.chatCloudNet b.chatLocalNet b.chatLocalFbNet with ⟨r, tr⟩
  cases r with
  | error e1 =>
    exact iff_of_true rfl ⟨e1, rfl⟩
  | ok p =>
    obtain ⟨resp, mu⟩ := p
    refine iff_of_false (by simp [ChatResult.success]) ?_
    rintro ⟨e, he⟩
    simp at he

/-- C2.  For the configuration that yields the two-provider chain
`[cloud, local]` (prefer-cloud with a key and fallback enabled), a failing
cloud call followed by a succeeding local call returns the local response
tagged `"local (fallback)"` after attempting cloud first then local; a
succeeding cloud call returns immediately with the cloud tag having
attempted only `[cloud]`; and under that configuration the attempt
sequence is always cloud first, local second — the order is a function of
the configuration alone.  This step is shared by `generate_website` and
`chat_modify`. -/
theorem fallback_order_c2 :
    (∀ (cfg : Config) (cn ln lfn : Except String String) (m t : String),
        useCloud cfg = true → cfg.useCloudFallback = true →
        cn = Except.error m → lfn = Except.ok t →
        codegenStep cfg cn ln lfn =
          (Except.ok (t, "local (fallback)"), [Provider.cloud, Provider.local])) ∧
    (∀ (cfg : Config) (cn ln lfn : Except String String) (t : String),
        useCloud cfg = true → cn = Except.ok t →
        codegenStep cfg cn ln lfn =
          (Except.ok (t, "cloud (" ++ cfg.cloudCodeModel ++ ")"), [Provider.cloud])) ∧
    (∀ (cfg : Config) (cn ln lfn : Except String String),
        useCloud cfg = true → cfg.useCloudFallback = true →
        (codegenStep cfg cn ln lfn).2 = [Provider.cloud] ∨
        (codegenStep cfg cn ln lfn).2 = [Provider.cloud, Provider.local]) := by
  have hkey : ∀ cfg : Config, useCloud cfg = true → cfg.hasKey = true := by
    intro cfg h
    unfold useCloud at h
    exact (Bool.and_eq_true _ _ |>.mp h).2
  refine ⟨?_, ?_, ?_⟩
  · intro cfg cn ln lfn m t hc hfb hcn hlfn
    subst hcn; subst hlfn
    simp [codegenStep, hc, hfb, callOpenrouterM, callOllamaM, hkey cfg hc]
  · intro cfg cn ln lfn t hc hcn
    subst hcn
    simp [codegenStep, hc, callOpenrouterM, hkey cfg hc]
  · intro cfg cn ln lfn hc hfb
    unfold codegenStep
    rw [if_pos hc]
    rcases hro : callOpenrouterM cfg.hasKey cn with e1 | t1
    · rcases hol : callOllamaM lfn with e2 | t2 <;> simp [hfb, hol]
    · simp

/-- Closed instance of C2: cloud times out, local succeeds, the result is
the local text tagged `"local (fallback)"` with attempts `[cloud, local]`. -/
theorem fallback_order_c2_witness :
    codegenStep
      { preferCloud := true, hasKey := true, useCloudFallback := true,
        cloudCodeModel := "cc", cloudChatModel := "ch" }
      (Except.error "timeout") (Except.error "unused") (Except.ok "PAGE") =
      (Except.ok ("PAGE", "local (fallback)"), [Provider.cloud, Provider.local]) :=
  fallback_order_c2.1 _ _ _ _ "timeout" "PAGE" rfl rfl rfl rfl

/-- C1 (amended).  Every chat request yields a result dict with an
explicit success flag for every provider behavior — the flag is false
exactly when the provider chain failed — and chat never raises.  The
generate workflow, by contrast, raises exactly when the code-generation
provider chain is exhausted, and what it raises is always the provider's
`HTTPException(500, d)` with non-empty detail, re-raised by the
`except HTTPException: raise` arm; every other path (including a failing
persistence step) returns a result object with an explicit success flag. -/
theorem workflows_result_c1 :
    (∀ (cfg : Config) (req : GenRequest) (b : GenBehavior) (st : Store) (fid now : String)
        (e : Exc),
        generate_website cfg req b st fid now = Except.error e ↔
        (codegenStep cfg b.codeCloudNet b.codeLocalNet b.codeLocalFbNet).1 = Except.error e) ∧
    (∀ (cfg : Config) (cn ln lfn : Except String String) (e : Exc),
        (codegenStep cfg cn ln lfn).1 = Except.error e → ∃ d, e = Exc.http 500 d ∧ d ≠ "") ∧
    (∀ (cfg : Config) (req : ChatRequest) (b : ChatBehavior),
        (chat_modify cfg req b).success = false ↔
        ∃ e, (codegenStep cfg b.chatCloudNet b.chatLocalNet b.chatLocalFbNet).1 =
          Except.error e) :=
  ⟨generate_error_iff, fun cfg cn ln lfn e h => codegenStep_error_http cfg cn ln lfn e h,
   chat_success_iff⟩

/-- Closed instance of C1: a chat request whose only provider fails still
returns a dict, with success flag false. -/
theorem workflows_result_c1_witness :
    (chat_modify
      { preferCloud := false, hasKey := false, useCloudFallback := false,
        cloudCodeModel := "cc", cloudChatModel := "ch" }
      { project_id := "w1", message := "m", current_html := none, current_css := none,
        current_js := none }
      { chatCloudNet := Except.error "x", chatLocalNet := Except.error "down",
        chatLocalFbNet := Except.error "y" }).success = false := by
  refine (workflows_result_c1.2.2 _ _ _).mpr ⟨Exc.http 500 "Ollama error: down", ?_⟩
  rfl

/-- C1 counterexample: with prefer-cloud off and the single attempted
provider failing, `generate_website` does not return a result object at
all — the provider's `HTTPException` escapes to the caller through the
`except HTTPException: raise` arm (src/backend/main.py lines 404-405),
contradicting the claim that every execution path of both workflows
terminates in a well-formed result object with a success flag. -/
theorem generate_raises_cex_c1 :
    generate_website
      { preferCloud := false, hasKey := false, useCloudFallback := false,
        cloudCodeModel := "cc", cloudChatModel := "ch" }
      { prompt := "p", project_id := none, enhance_prompt := false,
        include_images := false, single_file := true }
      { enhCloudNet := Except.error "e", enhLocalNet := Except.error "e",
        enhLocalFbNet := Except.error "e", codeCloudNet := Except.error "e",
        codeLocalNet := Except.error "conn refused", codeLocalFbNet := Except.error "e",
        persist := Except.ok () }
      emptyStore "project_1" "t0" =
      Except.error (Exc.http 500 "Ollama error: conn refused") := rfl

lemma prefixed_ne_empty (p m : String) (hp : p.data ≠ []) : p ++ m ≠ "" := by
  intro h
  apply hp
  have hd : (p ++ m).data = ("" : String).data := by rw [h]
  rw [String.data_append] at hd
  have hnil : ("" : String).data = [] := rfl
  rw [hnil] at hd
  exact (List.append_eq_nil.mp hd).1

lemma codegenStep_exhausted (cfg : Config) (m1 m2 m3 : String) :
    ∃ d, (codegenStep cfg (Except.error m1) (Except.error m2) (Except.error m3)).1 =
      Except.error (Exc.http 500 d) ∧ d ≠ "" := by
  unfold codegenStep
  by_cases hc : useCloud cfg = true
  · rw [if_pos hc]
    have hk : cfg.hasKey = true := by
      unfold useCloud at hc
      exact (Bool.and_eq_true _ _ |>.mp hc).2
    by_cases hfb : cfg.useCloudFallback = true
    · exact ⟨"Ollama error: " ++ m3, by simp [callOpenrouterM, callOllamaM, hk, hfb],
        prefixed_ne_empty _ _ (by decide)⟩
    · exact ⟨"OpenRouter error: " ++ m1, by simp [callOpenrouterM, callOllamaM, hk, hfb],
        prefixed_ne_empty _ _ (by decide)⟩
  · rw [if_neg hc]
    exact ⟨"Ollama error: " ++ m2, by simp [callOllamaM],
      prefixed_ne_empty _ _ (by decide)⟩

/-- C5 (amended).  When every provider attempted by the code-generation
step fails, `generate_website` does not return a `success=false` result
object: it raises the provider's `HTTPException(500, d)` (with non-empty
detail carrying the last underlying error) to the caller via the
`except HTTPException: raise` arm; the `success=false` path with empty
artifacts is reserved for non-HTTP exceptions. -/
theorem exhaustion_raises_c5 :
    ∀ (cfg : Config) (req : GenRequest) (b : GenBehavior) (st : Store)
      (fid now m1 m2 m3 : String),
      b.codeCloudNet = Except.error m1 → b.codeLocalNet = Except.error m2 →
      b.codeLocalFbNet = Except.error m3 →
      ∃ d, generate_website cfg req b st fid now = Except.error (Exc.http 500 d) ∧ d ≠ "" := by
  intro cfg req b st fid now m1 m2 m3 h1 h2 h3
  obtain ⟨d, hd, hne⟩ := codegenStep_exhausted cfg m1 m2 m3
  have hd2 : (codegenStep cfg b.codeCloudNet b.codeLocalNet b.codeLocalFbNet).1 =
      Except.error (Exc.http 500 d) := by
    rw [h1, h2, h3]
    exact hd
  exact ⟨d, (generate_error_iff cfg req b st fid now _).mpr hd2, hne⟩

/-- Closed instance of the amended C5: a full exhaustion of the chain
yields an HTTP 500 error with a non-empty detail. -/
theorem exhaustion_raises_c5_witness :
    ∃ d, generate_website
      { preferCloud := true, hasKey := true, useCloudFallback := true,
        cloudCodeModel := "g2", cloudChatModel := "g1" }
      { prompt := "site", project_id := none, enhance_prompt := false,
        include_images := false, single_file := true }
      { enhCloudNet := Except.ok "spec", enhLocalNet := Except.ok "spec",
        enhLocalFbNet := Except.ok "spec", codeCloudNet := Except.error "down0",
        codeLocalNet := Except.error "down1", codeLocalFbNet := Except.error "down2",
        persist := Except.ok () }
      emptyStore "f" "t" = Except.error (Exc.http 500 d) ∧ d ≠ "" :=
  exhaustion_raises_c5 _ _ _ _ _ _ "down0" "down1" "down2" rfl rfl rfl

/-- C5 counterexample: with the full chain failing (cloud then local
fallback), the generate workflow raises `HTTPException(500, ...)` instead
of returning a `success=false` result with empty artifacts, contradicting
the claim that exhaustion returns (does not raise). -/
theorem exhaustion_raises_cex_c5 :
    generate_website
      { preferCloud := true, hasKey := true, useCloudFallback := true,
        cloudCodeModel := "g2", cloudChatModel := "g1" }
      { prompt := "site", project_id := some "P5", enhance_prompt := false,
        include_images := false, single_file := true }
      { enhCloudNet := Except.ok "spec", enhLocalNet := Except.ok "spec",
        enhLocalFbNet := Except.ok "spec", codeCloudNet := Except.error "down1",
        codeLocalNet := Except.ok "unused", codeLocalFbNet := Except.error "down2",
        persist := Except.ok () }
      emptyStore "f" "t" =
      Except.error (Exc.http 500 "Ollama error: down2") := rfl

/-- C6.  If every provider attempt made by the prompt-enhancement step of
`generate_website` fails (the primary attempt and the nested local retry),
the step yields the original prompt unchanged and the whole generate
workflow behaves exactly as if enhancement had been disabled: the result
is identical to that of the same request with `enhance_prompt := false`,
so an enhancement failure can never produce a failed or error result for
the caller. -/
theorem enhancer_degrade_c6 :
    ∀ (cfg : Config) (req : GenRequest) (b : GenBehavior) (st : Store)
      (fid now m1 m2 m3 : String),
      b.enhCloudNet = Except.error m1 → b.enhLocalNet = Except.error m2 →
      b.enhLocalFbNet = Except.error m3 →
      enhanceStep cfg req.prompt req.enhance_prompt b = req.prompt ∧
      generate_website cfg req b st fid now =
        generate_website cfg
          { prompt := req.prompt, project_id := req.project_id, enhance_prompt := false,
            include_images := req.include_images, single_file := req.single_file }
          b st fid now := by
  intro cfg req b st fid now m1 m2 m3 h1 h2 h3
  have henh : enhanceStep cfg req.prompt req.enhance_prompt b = req.prompt := by
    unfold enhanceStep
    cases hflag : req.enhance_prompt
    · simp
    · by_cases hc : useCloud cfg = true
      · cases hk : cfg.hasKey <;>
          simp [hc, hk, h1, h2, h3, callOpenrouterM, callOllamaM]
      · simp [hc, h2, h3, callOllamaM]
  refine ⟨henh, ?_⟩
  unfold generate_website
  rw [henh]
  rfl

/-- Closed instance of C6: all three enhancement attempts fail, the step
returns the original prompt, and the generate result coincides with the
enhancement-disabled run. -/
theorem enhancer_degrade_c6_witness :
    enhanceStep
      { preferCloud := true, hasKey := true, useCloudFallback := true,
        cloudCodeModel := "g2", cloudChatModel := "g1" }
      "tiny prompt" true
      { enhCloudNet := Except.error "a", enhLocalNet := Except.error "b",
        enhLocalFbNet := Except.error "c", codeCloudNet := Except.ok "<html>hi</html>",
        codeLocalNet := Except.ok "u", codeLocalFbNet := Except.ok "u",
        persist := Except.ok () } = "tiny prompt" ∧
    generate_website
      { preferCloud := true, hasKey := true, useCloudFallback := true,
        cloudCodeModel := "g2", cloudChatModel := "g1" }
      { prompt := "tiny prompt", project_id := some "P6", enhance_prompt := true,
        include_images := false, single_file := true }
      { enhCloudNet := Except.error "a", enhLocalNet := Except.error "b",
        enhLocalFbNet := Except.error "c", codeCloudNet := Except.ok "<html>hi</html>",
        codeLocalNet := Except.ok "u", codeLocalFbNet := Except.ok "u",
        persist := Except.ok () }
      emptyStore "f" "t" =
    generate_website
      { preferCloud := true, hasKey := true, useCloudFallback := true,
        cloudCodeModel := "g2", cloudChatModel := "g1" }
      { prompt := "tiny prompt", project_id := some "P6", enhance_prompt := false,
        include_images := false, single_file := true }
      { enhCloudNet := Except.error "a", enhLocalNet := Except.error "b",
        enhLocalFbNet := Except.error "c", codeCloudNet := Except.ok "<html>hi</html>",
        codeLocalNet := Except.ok "u", codeLocalFbNet := Except.ok "u",
        persist := Except.ok () }
      emptyStore "f" "t" := by
  exact enhancer_degrade_c6
    { preferCloud := true, hasKey := true, useCloudFallback := true,
      cloudCodeModel := "g2", cloudChatModel := "g1" }
    { prompt := "tiny prompt", project_id := some "P6", enhance_prompt := true,
      include_images := false, single_file := true }
    { enhCloudNet := Except.error "a", enhLocalNet := Except.error "b",
      enhLocalFbNet := Except.error "c", codeCloudNet := Except.ok "<html>hi</html>",
      codeLocalNet := Except.ok "u", codeLocalFbNet := Except.ok "u",
      persist := Except.ok () }
    emptyStore "f" "t" "a" "b" "c" rfl rfl rfl

/-- C7.  In the chat workflow, whenever the provider step succeeds, each
of the three returned artifacts is the Python `or` of the extractor's
value and the caller's current value: the extractor's value when it is
non-empty, and the caller's current value (unchanged, possibly `None`)
when the extractor produced the empty string — merge-by-presence, never
wiping the untouched kinds. -/
theorem merge_by_presence_c7 :
    (∀ (cfg : Config) (req : ChatRequest) (b : ChatBehavior) (resp tag : String),
        (codegenStep cfg b.chatCloudNet b.chatLocalNet b.chatLocalFbNet).1 =
          Except.ok (resp, tag) →
        chat_modify cfg req b =
          ChatResult.ok req.project_id "Code updated successfully"
            (pyOr (extract_code_blocks resp).html req.current_html)
            (pyOr (extract_code_blocks resp).css req.current_css)
            (pyOr (extract_code_blocks resp).js req.current_js) resp tag) ∧
    (∀ (x : String) (cur : Option String),
        (x ≠ "" → pyOr x cur = some x) ∧ (x = "" → pyOr x cur = cur)) := by
  constructor
  · intro cfg req b resp tag h
    unfold chat_modify
    rcases hcg : codegenStep cfg b.chatCloudNet b.chatLocalNet b.chatLocalFbNet with ⟨r, tr⟩
    rw [hcg] at h
    simp only at h
    subst h
    rfl
  · intro x cur
    constructor
    · intro hx
      simp [pyOr, hx]
    · intro hx
      simp [pyOr, hx]

/-- Closed instance of C7, the spec's scenario: current artifacts
(markup `"M"`, style `"S"`, script `""`) and a response containing only a
style fenced block; the result keeps markup `"M"` and script `""`
untouched and replaces only the style. -/
theorem merge_by_presence_c7_witness :
    chat_modify
      { preferCloud := false, hasKey := false, useCloudFallback := false,
        cloudCodeModel := "cc", cloudChatModel := "ch" }
      { project_id := "proj", message := "restyle it", current_html := some "M",
        current_css := some "S", current_js := some "" }
      { chatCloudNet := Except.error "x", chatLocalNet := Except.ok "```css\nbody\n```",
        chatLocalFbNet := Except.error "y" } =
      ChatResult.ok "proj" "Code updated successfully" (some "M") (some "body") (some "")
        "```css\nbody\n```" "local" := by
  have h := merge_by_presence_c7.1
    { preferCloud := false, hasKey := false, useCloudFallback := false,
      cloudCodeModel := "cc", cloudChatModel := "ch" }
    { project_id := "proj", message := "restyle it", current_html := some "M",
      current_css := some "S", current_js := some "" }
    { chatCloudNet := Except.error "x", chatLocalNet := Except.ok "```css\nbody\n```",
      chatLocalFbNet := Except.error "y" }
    "```css\nbody\n```" "local" rfl
  rw [h]
  rfl

lemma searchFence_first (f : List Char → Option (List Char)) :
    ∀ (l c : List Char), searchFence f l = some c →
      ∃ n, f (l.drop n) = some c ∧ ∀ m, m < n → f (l.drop m) = none := by
  intro l
  induction l with
  | nil =>
    intro c h
    simp [searchFence] at h
  | cons a l ih =>
    intro c h
    unfold searchFence at h
    cases hf : f (a :: l) with
    | some r =>
      rw [hf] at h
      simp only [Option.some.injEq] at h
      subst h
      exact ⟨0, hf, fun m hm => absurd hm (Nat.not_lt_zero m)⟩
    | none =>
      rw [hf] at h
      obtain ⟨n, hn, hprev⟩ := ih c h
      refine ⟨n + 1, by simpa using hn, ?_⟩
      intro m hm
      cases m with
      | zero => simpa using hf
      | succ m2 => simpa using hprev m2 (Nat.lt_of_succ_lt_succ hm)

/-- C3 (amended).  The extractor captures, for each of the three kinds,
the capture of the leftmost matching fenced region (case-insensitive
language tag) with surrounding whitespace trimmed; a trimmed non-empty
capture always becomes the artifact of its kind.  The document-root
fallback, however, is guarded by `not any(result.values())`: it fires
whenever all three captured-and-trimmed values are empty — in particular,
but not only, when no region matched — and the text contains a
case-insensitive document-root marker, in which case the entire trimmed
response becomes the markup artifact with style and script empty; with
all three captured values empty and no marker, all three artifacts are
empty strings.  Extraction is a pure function of the response text. -/
theorem artifact_extraction_c3 :
    ∀ r : String,
      (∀ c, htmlSearch r.toList = some c →
        ∃ n, fenceAt htmlTag (r.toList.drop n) = some c ∧
          ∀ m, m < n → fenceAt htmlTag (r.toList.drop m) = none) ∧
      (∀ c, cssSearch r.toList = some c →
        ∃ n, fenceAt cssTag (r.toList.drop n) = some c ∧
          ∀ m, m < n → fenceAt cssTag (r.toList.drop m) = none) ∧
      (∀ c, jsSearch r.toList = some c →
        ∃ n, jsAt (r.toList.drop n) = some c ∧
          ∀ m, m < n → jsAt (r.toList.drop m) = none) ∧
      (∀ c, htmlSearch r.toList = some c → String.mk (pyStrip c) ≠ "" →
        (extract_code_blocks r).html = String.mk (pyStrip c)) ∧
      (∀ c, cssSearch r.toList = some c →
        (extract_code_blocks r).css = String.mk (pyStrip c)) ∧
      (∀ c, jsSearch r.toList = some c →
        (extract_code_blocks r).js = String.mk (pyStrip c)) ∧
      (htmlVal r = "" → cssVal r = "" → jsVal r = "" →
        (hasDocMarker r.toList = true →
          extract_code_blocks r =
            { html := String.mk (pyStrip r.toList), css := "", js := "" }) ∧
        (hasDocMarker r.toList = false →
          extract_code_blocks r = { html := "", css := "", js := "" })) ∧
      (∀ r2 : String, r = r2 → extract_code_blocks r = extract_code_blocks r2) := by
  intro r
  refine ⟨searchFence_first _ _, searchFence_first _ _, searchFence_first _ _,
    ?_, ?_, ?_, ?_, ?_⟩
  · intro c hc hne
    have hv : htmlVal r = String.mk (pyStrip c) := by
      unfold htmlVal
      rw [hc]
    unfold extract_code_blocks
    rw [if_neg]
    · simpa using hv
    · rintro ⟨h1, -⟩
      exact hne (hv ▸ h1)
  · intro c hc
    have hv : cssVal r = String.mk (pyStrip c) := by
      unfold cssVal
      rw [hc]
    unfold extract_code_blocks
    by_cases hcond : (htmlVal r = "" ∧ cssVal r = "" ∧ jsVal r = "" ∧
        hasDocMarker r.toList = true)
    · rw [if_pos hcond]
      simpa using hv
    · rw [if_neg hcond]
      simpa using hv
  · intro c hc
    have hv : jsVal r = String.mk (pyStrip c) := by
      unfold jsVal
      rw [hc]
    unfold extract_code_blocks
    by_cases hcond : (htmlVal r = "" ∧ cssVal r = "" ∧ jsVal r = "" ∧
        hasDocMarker r.toList = true)
    · rw [if_pos hcond]
      simpa using hv
    · rw [if_neg hcond]
      simpa using hv
  · intro hh hc hj
    constructor
    · intro hmark
      unfold extract_code_blocks
      rw [if_pos ⟨hh, hc, hj, hmark⟩, hc, hj]
    · intro hmark
      unfold extract_code_blocks
      rw [if_neg]
      · rw [hh, hc, hj]
      · rintro ⟨-, -, -, h4⟩
        rw [hmark] at h4
        exact Bool.false_ne_true h4
  · intro r2 h
    rw [h]

/-- Closed instance of the amended C3: a case-insensitively tagged style
fence is captured and trimmed (first conjuncts), and a fenceless response
carrying a document-root marker becomes, trimmed, the markup artifact. -/
theorem artifact_extraction_c3_witness :
    (extract_code_blocks ("pre ```CSS  x ```tail")).css = "x" ∧
    extract_code_blocks (" <HTML>") = { html := "<HTML>", css := "", js := "" } := by
  constructor
  · exact (artifact_extraction_c3 ("pre ```CSS  x ```tail")).2.2.2.2.1 (['x', ' ']) rfl
  · exact ((artifact_extraction_c3 (" <HTML>")).2.2.2.2.2.2.1 rfl rfl rfl).1 rfl

/-- C3 counterexample: in `"```html ``` <html>"` the html regex finds a
fenced markup region whose capture strips to the empty string, so by the
claim as stated the fallback must not fire and the markup artifact should
be that (empty) captured region; but the source's guard
`not any(result.values())` sees three empty strings and, the text
containing `<html>`, assigns the whole stripped response to the markup
artifact instead. -/
theorem artifact_extraction_cex_c3 :
    htmlSearch (("```html ``` <html>").toList) = some [] ∧
    extract_code_blocks ("```html ``` <html>") =
      { html := "```html ``` <html>", css := "", js := "" } ∧
    (extract_code_blocks ("```html ``` <html>")).html ≠ "" := by
  exact ⟨rfl, rfl, by decide⟩

/-- C8 (amended).  For an identifier with no prior trace in the store
(fresh folder, no files, no metadata), saving and then loading returns
exactly the saved artifacts and metadata — missing per-artifact files
(empty style or script were not written) read back as empty strings, not
errors — and loading an identifier that was never saved fails with the
404 `HTTPException` (`ProjectNotFound`).  The freshness proviso is
necessary: stale artifact files from an earlier save of the same
identifier are not removed and can leak into the loaded result. -/
theorem store_roundtrip_c8 :
    ∀ (st : Store) (pid ha ca ja : String) (m : Metadata), freshFor st pid →
      get_project (saveProject st pid ha ca ja m) pid =
        Except.ok
          { success := true, project_id := pid, html := ha, css := ca,
            javascript := ja, metadata := some m } ∧
      get_project st pid = Except.error (Exc.http 404 "Project not found") := by
  intro st pid ha ca ja m hfresh
  obtain ⟨hf, hfile, hmeta⟩ := hfresh
  constructor
  · by_cases hc2 : ca = "" <;> by_cases hj2 : ja = "" <;>
      simp [saveProject, get_project, hf, hc2, hj2, lookupFile, lookupMeta,
        hfile ("index.html"), hfile ("styles.css"), hfile ("script.js"), hmeta]
  · unfold get_project
    rw [if_neg hf]

/-- Closed instance of the amended C8: fresh save with empty style and
script loads back exactly, and loading from the empty store is a 404. -/
theorem store_roundtrip_c8_witness :
    get_project
      (saveProject emptyStore "pw" "H" "" ""
        { project_id := "pw", original_prompt := "o", enhanced_prompt := "e",
          created_at := "t", model_used := "local" }) "pw" =
      Except.ok
        { success := true, project_id := "pw", html := "H", css := "",
          javascript := "",
          metadata := some
            { project_id := "pw", original_prompt := "o",
              enhanced_prompt := "e", created_at := "t", model_used := "local" } } ∧
    get_project emptyStore "pw" = Except.error (Exc.http 404 "Project not found") := by
  exact store_roundtrip_c8 emptyStore "pw" "H" "" ""
    { project_id := "pw", original_prompt := "o", enhanced_prompt := "e",
      created_at := "t", model_used := "local" }
    ⟨by simp [emptyStore], fun fn => rfl, rfl⟩

/-- C8 counterexample: an earlier save of the same identifier left a
`script.js` file; a later save with an empty script artifact does not
remove it, so loading returns the stale `"jOld"` instead of the saved
empty script — saving then loading does not return what was saved for
every store state. -/
theorem store_roundtrip_cex_c8 :
    get_project
      (saveProject
        (saveProject emptyStore "p8" "hA" "" "jOld"
          { project_id := "p8", original_prompt := "o1", enhanced_prompt := "e1",
            created_at := "t1", model_used := "m1" })
        "p8" "hB" "" ""
        { project_id := "p8", original_prompt := "o2", enhanced_prompt := "e2",
          created_at := "t2", model_used := "m2" }) "p8" =
      Except.ok
        { success := true, project_id := "p8", html := "hB", css := "",
          javascript := "jOld",
          metadata := some
            { project_id := "p8", original_prompt := "o2",
              enhanced_prompt := "e2", created_at := "t2", model_used := "m2" } } ∧
    ("jOld" : String) ≠ "" :=
  ⟨rfl, by decide⟩

/-- C9 (amended).  Re-saving an identifier overwrites the markup and the
metadata unconditionally and the style/script files only when the second
save's artifact is non-empty: a subsequent load observes the second
save's markup and metadata but, for an empty second-save style or script,
the first save's value — a mixture of the two saves, not a complete
overwrite. -/
theorem resave_overwrite_c9 :
    ∀ (st : Store) (pid ha ca ja hb cb jb : String) (m1 m2 : Metadata), freshFor st pid →
      get_project (saveProject (saveProject st pid ha ca ja m1) pid hb cb jb m2) pid =
        Except.ok
          { success := true, project_id := pid, html := hb,
            css := if cb = "" then ca else cb, javascript := if jb = "" then ja else jb,
            metadata := some m2 } := by
  intro st pid ha ca ja hb cb jb m1 m2 hfresh
  obtain ⟨hf, hfile, hmeta⟩ := hfresh
  by_cases hca : ca = "" <;> by_cases hja : ja = "" <;>
    by_cases hcb : cb = "" <;> by_cases hjb : jb = "" <;>
      simp [saveProject, get_project, hf, hca, hja, hcb, hjb, lookupFile, lookupMeta,
        hfile ("index.html"), hfile ("styles.css"), hfile ("script.js"), hmeta]

/-- Closed instance of the amended C9: second save with an empty style
leaves the first save's style visible while markup and metadata are the
second save's. -/
theorem resave_overwrite_c9_witness :
    get_project
      (saveProject
        (saveProject emptyStore "pw9" "H1" "old" "K1"
          { project_id := "pw9", original_prompt := "oA", enhanced_prompt := "eA",
            created_at := "tA", model_used := "mA" })
        "pw9" "H2" "" "K2"
        { project_id := "pw9", original_prompt := "oB", enhanced_prompt := "eB",
          created_at := "tB", model_used := "mB" }) "pw9" =
      Except.ok
        { success := true, project_id := "pw9", html := "H2", css := "old",
          javascript := "K2",
          metadata := some
            { project_id := "pw9", original_prompt := "oB",
              enhanced_prompt := "eB", created_at := "tB", model_used := "mB" } } := by
  have h := resave_overwrite_c9 emptyStore "pw9" "H1" "old" "K1" "H2" "" "K2"
    { project_id := "pw9", original_prompt := "oA", enhanced_prompt := "eA",
      created_at := "tA", model_used := "mA" }
    { project_id := "pw9", original_prompt := "oB", enhanced_prompt := "eB",
      created_at := "tB", model_used := "mB" }
    ⟨by simp [emptyStore], fun fn => rfl, rfl⟩
  simpa using h

/-- C9 counterexample: the second save of `"p9"` carries an empty style;
the load after it observes the first save's style `"c1"` next to the
second save's markup and metadata — a mixture of the two saves, where the
claim requires exactly the second save's content with style empty. -/
theorem resave_overwrite_cex_c9 :
    get_project
      (saveProject
        (saveProject emptyStore "p9" "h1" "c1" "j1"
          { project_id := "p9", original_prompt := "oX", enhanced_prompt := "eX",
            created_at := "tX", model_used := "mX" })
        "p9" "h2" "" "j2"
        { project_id := "p9", original_prompt := "oY", enhanced_prompt := "eY",
          created_at := "tY", model_used := "mY" }) "p9" =
      Except.ok
        { success := true, project_id := "p9", html := "h2", css := "c1",
          javascript := "j2",
          metadata := some
            { project_id := "p9", original_prompt := "oY",
              enhanced_prompt := "eY", created_at := "tY", model_used := "mY" } } ∧
    ("c1" : String) ≠ "" :=
  ⟨rfl, by decide⟩

/-- C4 (amended).  `route_tasks` never raises, but it performs no schema
validation at all: it returns the `call_llm` value unchanged, so a
200-status local response body — JSON or not — is returned verbatim with
no TaskPlan construction and no recoverable-parse-error flag; the string
`"{}"` is produced only by `call_llm`'s local `except` arm, i.e. when the
local call raises. -/
theorem router_raw_c4 :
    (∀ (p : String) (k : Bool) (c l : NetOutcome),
        route_tasks p k c l = call_llm k c l) ∧
    (∀ (b : String) (k : Bool) (c : NetOutcome),
        (k = false ∨ ∀ b2, c ≠ NetOutcome.ok 200 b2) →
        call_llm k c (NetOutcome.ok 200 b) = some b) ∧
    (∀ (m : String) (k : Bool) (c : NetOutcome),
        (k = false ∨ ∀ b2, c ≠ NetOutcome.ok 200 b2) →
        call_llm k c (NetOutcome.exn m) = some ("\x7b\x7d")) := by
  refine ⟨fun p k c l => rfl, ?_, ?_⟩
  · intro b k c h
    cases k with
    | false => rfl
    | true =>
      rcases h with hk | hc
      · exact absurd hk (by simp)
      · cases c with
        | ok s body =>
          by_cases hs : s = 200
          · subst hs
            exact absurd rfl (hc body)
          · simp [call_llm, hs]
        | exn m2 => rfl
  · intro m k c h
    cases k with
    | false => rfl
    | true =>
      rcases h with hk | hc
      · exact absurd hk (by simp)
      · cases c with
        | ok s body =>
          by_cases hs : s = 200
          · subst hs
            exact absurd rfl (hc body)
          · simp [call_llm, hs]
        | exn m2 => rfl

/-- Closed instance of the amended C4: cloud completes non-200, the local
call raises, and the route tool returns the raw degradation string. -/
theorem router_raw_c4_witness :
    route_tasks "spec" true (NetOutcome.ok 503 "overloaded") (NetOutcome.exn "conn") =
      some ("\x7b\x7d") := by
  rw [router_raw_c4.1 "spec" true (NetOutcome.ok 503 "overloaded") (NetOutcome.exn "conn")]
  exact router_raw_c4.2.2 "conn" true (NetOutcome.ok 503 "overloaded")
    (Or.inr (fun b2 => by simp))

/-- C4 counterexample: fed the model response `"not json"`, `route_tasks`
returns the string `"not json"` itself — the unparsed text, not an
empty-but-valid TaskPlan, and its result (an optional string) carries no
recoverable-parse-error flag that a caller could check. -/
theorem router_raw_cex_c4 :
    route_tasks "spec" false (NetOutcome.ok 200 "irrelevant") (NetOutcome.ok 200 "not json") =
      some "not json" ∧ ("not json" : String) ≠ "\x7b\x7d" :=
  ⟨rfl, by decide⟩

/-- C10.  When the cloud call completes with a non-success status and the
local call also completes with a non-success status (neither raising),
`call_llm` falls off the end and returns no value (`None`), and
`route_tasks` therefore returns `None` — neither a JSON string nor the
`"{}"` fallback; and whenever the returned value is the string `"{}"`,
either the local call raised an exception (the fallback arm) or `"{}"`
was the genuine 200-status body of one of the two providers. -/
theorem router_none_c10 :
    (∀ (p : String) (k : Bool) (s s2 : Nat) (b b2 : String), s ≠ 200 → s2 ≠ 200 →
        call_llm k (NetOutcome.ok s b) (NetOutcome.ok s2 b2) = none ∧
        route_tasks p k (NetOutcome.ok s b) (NetOutcome.ok s2 b2) = none) ∧
    (∀ (p : String) (k : Bool) (c l : NetOutcome),
        route_tasks p k c l = some ("\x7b\x7d") →
        (∃ m, l = NetOutcome.exn m) ∨ l = NetOutcome.ok 200 ("\x7b\x7d") ∨
          (k = true ∧ c = NetOutcome.ok 200 ("\x7b\x7d"))) := by
  constructor
  · intro p k s s2 b b2 hs hs2
    cases k <;> refine ⟨by simp [call_llm, hs, hs2], by simp [route_tasks, call_llm, hs, hs2]⟩
  · intro p k c l h
    unfold route_tasks call_llm at h
    cases k with
    | false =>
      cases l with
      | ok s body =>
        by_cases hs : s = 200
        · subst hs
          simp at h
          exact Or.inr (Or.inl (by rw [h]))
        · simp [hs] at h
      | exn m => exact Or.inl ⟨m, rfl⟩
    | true =>
      cases c with
      | ok sc bc =>
        by_cases hsc : sc = 200
        · subst hsc
          simp at h
          exact Or.inr (Or.inr ⟨rfl, by rw [h]⟩)
        · simp only [if_true, hsc, if_false] at h
          cases l with
          | ok s body =>
            by_cases hs : s = 200
            · subst hs
              simp [hsc] at h
              exact Or.inr (Or.inl (by rw [h]))
            · simp [hsc, hs] at h
          | exn m => exact Or.inl ⟨m, rfl⟩
      | exn mc =>
        cases l with
        | ok s body =>
          by_cases hs : s = 200
          · subst hs
            simp at h
            exact Or.inr (Or.inl (by rw [h]))
          · simp [hs] at h
        | exn m => exact Or.inl ⟨m, rfl⟩

/-- Closed instance of C10: cloud 500, local 404, no exception anywhere —
both the helper and the route tool return no value. -/
theorem router_none_c10_witness :
    call_llm true (NetOutcome.ok 500 "err") (NetOutcome.ok 404 "nf") = none ∧
    route_tasks "spec2" true (NetOutcome.ok 500 "err") (NetOutcome.ok 404 "nf") = none :=
  router_none_c10.1 "spec2" true 500 404 "err" "nf" (by decide) (by decide)
